import Mathlib

/-!
Verification of the notification-delivery core of this repository.

The repository contains two versions of the `RabbitMQClient` class
(src/unnamed/part_000 and src/unnamed/part_001) and two versions of the
`RabbitMQManager` class (src/unnamed/part_004 and src/unnamed/part_003).
We embed both client versions: namespace `V0` models part_000 and
namespace `V1` models part_001.  The store is restricted to the single
`Notification` row keyed by the delivered message's `messageId`
(`Option Notification`: `none` means no row exists for that id), since
`processMessage` reads and writes only that row.  External calls that can
raise (transaction begin, locked find, save, commit, rollback, the sender,
and the two terminal `Notification.update` calls) are given explicit
outcome flags in `Env`; logger calls are modelled as non-raising no-ops.
-/

namespace Notifier

/-- The `status` column of a `Notification` record. -/
inductive Status
  | pending
  | processing
  | sent
  | failed
deriving DecidableEq, Repr

/-- A `Notification` row: mutable fields touched by `processMessage`. -/
structure Notification where
  status : Status
  attempts : Nat
  connectorResponse : Option String
deriving DecidableEq, Repr

/-- An acknowledgment action issued to the broker channel:
`channel.ack msg`, `channel.nack msg false true`, `channel.nack msg false false`. -/
inductive AckAction
  | ack
  | nackRequeue
  | nackDrop
deriving DecidableEq, Repr

/-- Observable result of one `processMessage` execution: the ack/nack calls
made (in order), whether an exception escaped the async handler, the final
store row, and whether the `sender` capability was invoked. -/
structure RunResult where
  outcomes : List AckAction
  escaped : Bool
  store : Option Notification
  senderInvoked : Bool
deriving DecidableEq, Repr

/-- The parsed JSON payload of a queued message.  `none` in a field means
the field is absent or falsy (part_001 validates with JS truthiness). -/
structure Payload where
  clientId : Option String
  messageId : Option String
  hasContent : Bool
  contentMessage : Option String
  contentSubject : Option String
  contentBody : Option String
  contentFromEmail : Option String
  destination : Option String
  provider : Option String
deriving DecidableEq, Repr

/-- Outcomes of the external collaborators during one delivery: which store
and transport calls raise, and the error strings they carry. -/
structure Env where
  beginTxRaises : Bool
  findRaises : Bool
  saveRaises : Bool
  commitRaises : Bool
  rollbackRaises : Bool
  senderRaises : Bool
  senderErrMsg : String
  updateSentRaises : Bool
  updateSentErrMsg : String
  updateFailedRaises : Bool
deriving DecidableEq, Repr

/-- part_001's required-field validation (lines 157-170): `clientId`,
`messageId`, `content`, `content.message`, `destination` all truthy. -/
def validPayload (p : Payload) : Bool :=
  p.clientId.isSome && p.messageId.isSome && p.hasContent &&
    p.contentMessage.isSome && p.destination.isSome

/-- Result of the pre-send transaction block: either the handler finished
with a `RunResult`, or it committed the `processing` mark and proceeds to
the send phase with the in-memory record. -/
inductive PreSendResult
  | done (r : RunResult)
  | proceed (record : Notification) (store : Option Notification)
deriving DecidableEq, Repr

namespace V0

/-- part_000 builds `msgData` for these services (lines 164-183); any other
service name leaves `msgData` undefined and throws. -/
def supportedService (service : String) : Bool :=
  service == "sms" || service == "email" || service == "slack" || service == "slackbot"

/-- part_000's catch for the pre-send transaction (lines 155-159):
rollback, log, `nack(msg, false, true)`.  A raising rollback escapes the
handler (the catch is not itself guarded). -/
def dbCatch (env : Env) (store : Option Notification) : RunResult :=
  if env.rollbackRaises then ⟨[], true, store, false⟩
  else ⟨[.nackRequeue], false, store, false⟩

/-- part_000's pre-send transaction body (lines 125-159).  Writes done via
`record.save` become visible only when the commit succeeds; a raise inside
the block reaches `dbCatch` and the store is rolled back. -/
def preSend (env : Env) (maxAttempts : Nat) (store : Option Notification) : PreSendResult :=
  if env.findRaises then .done (dbCatch env store)
  else
    match store with
    | none =>
      if env.commitRaises then .done (dbCatch env none)
      else .done ⟨[.nackDrop], false, none, false⟩
    | some record =>
      if record.status = .sent then
        if env.commitRaises then .done (dbCatch env (some record))
        else .done ⟨[.ack], false, some record, false⟩
      else if record.status = .failed ∧ maxAttempts ≤ record.attempts then
        if env.commitRaises then .done (dbCatch env (some record))
        else .done ⟨[.ack], false, some record, false⟩
      else
        if env.saveRaises || env.commitRaises then .done (dbCatch env (some record))
        else
          let updated : Notification :=
            { record with status := .processing, attempts := record.attempts + 1 }
          .proceed updated (some updated)

/-- part_000's send phase (lines 161-209).  The catch updates the record to
`failed` with the error detail and then acks when the in-memory (already
incremented) `attempts` has reached `maxAttempts`, else nack-requeues.  If
the `failed` update itself raises, the exception escapes the handler. -/
def sendPhase (env : Env) (service : String) (maxAttempts : Nat)
    (record : Notification) (store : Option Notification) : RunResult :=
  let failWrite : String → Bool → RunResult := fun errMsg invoked =>
    if env.updateFailedRaises then ⟨[], true, store, invoked⟩
    else
      let st1 := store.map (fun r => { r with status := .failed, connectorResponse := some errMsg })
      if maxAttempts ≤ record.attempts then ⟨[.ack], false, st1, invoked⟩
      else ⟨[.nackRequeue], false, st1, invoked⟩
  if !supportedService service then failWrite ("Unsupported service: " ++ service) false
  else if env.senderRaises then failWrite env.senderErrMsg true
  else if env.updateSentRaises then failWrite env.updateSentErrMsg true
  else ⟨[.ack], false, store.map (fun r => { r with status := .sent }), true⟩

/-- part_000's `processMessage` (lines 109-210).  `msg = none` is a null
delivery (cancelled consumer); `msg = some none` is a body that fails
`JSON.parse`; `msg = some (some p)` parsed to payload `p`.  Note that
`db.sequelize.transaction()` (line 123) sits outside every try block, so
its failure escapes the handler. -/
def processMessage (env : Env) (msg : Option (Option Payload)) (service : String)
    (maxAttempts : Nat) (store : Option Notification) : RunResult :=
  match msg with
  | none => ⟨[], false, store, false⟩
  | some none => ⟨[.nackDrop], false, store, false⟩
  | some (some _) =>
    if env.beginTxRaises then ⟨[], true, store, false⟩
    else
      match preSend env maxAttempts store with
      | .done r => r
      | .proceed record st1 => sendPhase env service maxAttempts record st1

end V0

namespace V1

/-- part_001's catch for the pre-send transaction (lines 247-261):
rollback, then `nack(msg, false, notificationRecord.attempts < max)`.
When no record had been fetched, reading `.attempts` raises a TypeError
that reaches the outer catch, which nacks without requeue; a raising
rollback reaches the outer catch the same way. -/
def dbCatch (env : Env) (maxAttempts : Nat) (recordAvail : Option Notification)
    (store : Option Notification) : RunResult :=
  if env.rollbackRaises then ⟨[.nackDrop], false, store, false⟩
  else
    match recordAvail with
    | none => ⟨[.nackDrop], false, store, false⟩
    | some r =>
      if r.attempts < maxAttempts then ⟨[.nackRequeue], false, store, false⟩
      else ⟨[.nackDrop], false, store, false⟩

/-- part_001's pre-send transaction body (lines 176-261), with the
`status == processing` skip branch and the max-attempts branch that
appends " | Max attempts reached." to `connectorResponse`. -/
def preSend (env : Env) (maxAttempts : Nat) (store : Option Notification) : PreSendResult :=
  if env.findRaises then .done (dbCatch env maxAttempts none store)
  else
    match store with
    | none =>
      if env.commitRaises then .done (dbCatch env maxAttempts none none)
      else .done ⟨[.nackDrop], false, none, false⟩
    | some record =>
      if record.status = .sent then
        if env.commitRaises then .done (dbCatch env maxAttempts (some record) (some record))
        else .done ⟨[.ack], false, some record, false⟩
      else if record.status = .processing then
        if env.commitRaises then .done (dbCatch env maxAttempts (some record) (some record))
        else .done ⟨[.ack], false, some record, false⟩
      else if maxAttempts ≤ record.attempts ∧ record.status = .failed then
        let marked : Notification :=
          { record with
            status := .failed,
            connectorResponse :=
              some ((record.connectorResponse.getD "") ++ " | Max attempts reached.") }
        if env.saveRaises || env.commitRaises then
          .done (dbCatch env maxAttempts (some marked) (some record))
        else .done ⟨[.ack], false, some marked, false⟩
      else
        let updated : Notification :=
          { record with status := .processing, attempts := record.attempts + 1 }
        if env.saveRaises || env.commitRaises then
          .done (dbCatch env maxAttempts (some updated) (some record))
        else .proceed updated (some updated)

/-- part_001's send phase (lines 263-300).  On sender failure (or on a
raising `sent` update) the record is updated to `failed` with the error
detail and the message is ACKed unconditionally; if the `failed` update
raises too, the outer catch nacks without requeue. -/
def sendPhase (env : Env) (record : Notification) (store : Option Notification) : RunResult :=
  let failWrite : String → RunResult := fun errMsg =>
    if env.updateFailedRaises then ⟨[.nackDrop], false, store, true⟩
    else
      ⟨[.ack], false,
        store.map (fun r => { r with status := .failed, connectorResponse := some errMsg }), true⟩
  if env.senderRaises then failWrite env.senderErrMsg
  else if env.updateSentRaises then failWrite env.updateSentErrMsg
  else ⟨[.ack], false, store.map (fun r => { r with status := .sent }), true⟩

/-- part_001's `processMessage` (lines 137-308).  Everything after the null
check runs inside one outer try whose catch nacks without requeue, so parse
failures, validation passes straight through, and a raising
`db.sequelize.transaction()` all resolve to a single nack-drop. -/
def processMessage (env : Env) (msg : Option (Option Payload)) (maxAttempts : Nat)
    (store : Option Notification) : RunResult :=
  match msg with
  | none => ⟨[], false, store, false⟩
  | some none => ⟨[.nackDrop], false, store, false⟩
  | some (some p) =>
    if !validPayload p then ⟨[.nackDrop], false, store, false⟩
    else if env.beginTxRaises then ⟨[.nackDrop], false, store, false⟩
    else
      match preSend env maxAttempts store with
      | .done r => r
      | .proceed record st1 => sendPhase env record st1

end V1

namespace Client

/-- Handle state of a `RabbitMQClient` instance: whether the connection and
channel handles are set (non-null) and the stored consumer tag.  Identical
fields in part_000 (lines 9-12) and part_001 (lines 35-38). -/
structure ClientState where
  connection : Bool
  channel : Bool
  consumerTag : Option Nat
  isShuttingDown : Bool
deriving DecidableEq, Repr

/-- part_000's `connect` (lines 15-31): returns early when a connection
already exists, otherwise sets both handles. -/
def connectV0 (s : ClientState) : ClientState :=
  if s.connection then s else { s with connection := true, channel := true }

/-- part_001's `connect` (lines 51-82): unconditionally reconnects and sets
both handles (also asserts the exchange/queue, which we do not track). -/
def connectV1 (s : ClientState) : ClientState :=
  { s with connection := true, channel := true }

/-- part_000's `consume` (lines 63-107).  Returns `none` when the missing
service config makes it throw; otherwise the new state and whether a new
broker subscription was registered via `channel.consume`. -/
def consumeV0 (configOk : Bool) (newTag : Nat) (s : ClientState) :
    Option (ClientState × Bool) :=
  let s1 := if !s.channel then connectV0 s else s
  if s1.consumerTag.isSome then some (s1, false)
  else if !configOk then none
  else some ({ s1 with consumerTag := some newTag }, true)

/-- part_001's `consume` (lines 84-108): no config lookup; connect if
needed, skip when a consumer tag is already stored, else subscribe. -/
def consumeV1 (newTag : Nat) (s : ClientState) : Option (ClientState × Bool) :=
  let s1 := if !s.channel then connectV1 s else s
  if s1.consumerTag.isSome then some (s1, false)
  else some ({ s1 with consumerTag := some newTag }, true)

/-- Which of the teardown calls inside `close` raise.  `cancelRaises`
also covers the TypeError from `this.channel.cancel` when the channel
handle is null while a consumer tag is set. -/
structure CloseEnv where
  cancelRaises : Bool
  channelCloseRaises : Bool
  connectionCloseRaises : Bool
deriving DecidableEq, Repr

/-- `close`, identical in part_000 (lines 212-224) and part_001 (lines
357-373): a try block cancelling the consumer and closing channel and
connection, with a finally that nulls all three handles.  The returned
Bool records whether an exception escaped `close` (re-thrown after the
finally block ran). -/
def close (env : CloseEnv) (s : ClientState) : ClientState × Bool :=
  let cancelRaised := s.consumerTag.isSome && (!s.channel || env.cancelRaises)
  let channelRaised := !cancelRaised && s.channel && env.channelCloseRaises
  let connectionRaised :=
    !cancelRaised && !channelRaised && s.connection && env.connectionCloseRaises
  (⟨false, false, none, true⟩, cancelRaised || channelRaised || connectionRaised)

end Client

namespace Registry

/-- Progress of one in-flight `RabbitMQManager.getClient(id)` call for a
fixed, previously-unseen id: it has not yet run the `cache.has` check, or
it passed the check on a miss and is awaiting config load / `connect`, or
it returned a client (identified by creation index). -/
inductive CallPhase
  | beforeCheck
  | building
  | donePhase (client : Nat)
deriving DecidableEq, Repr

/-- Manager state projected to one cache key: the cached client for that
key (by creation index) and how many broker connections have been created,
plus the in-flight calls for that key. -/
structure MgrState where
  cache : Option Nat
  created : Nat
  calls : List CallPhase
deriving DecidableEq, Repr

/-- One scheduler step of call `i`, following `getClient` in part_004
(lines 26-43) and part_003 (lines 52-75): the `cache.has`/`cache.get`
check is synchronous (atomic), then the call suspends across
`await loadClientConfig` / `await client.connect()`, and finally
`cache.set(clientId, client)` stores the freshly connected client,
silently replacing whatever was there. -/
def stepCall (s : MgrState) (i : Nat) : MgrState :=
  match s.calls.get? i with
  | some .beforeCheck =>
    match s.cache with
    | some c => { s with calls := s.calls.set i (.donePhase c) }
    | none => { s with calls := s.calls.set i .building }
  | some .building =>
    { cache := some s.created, created := s.created + 1,
      calls := s.calls.set i (.donePhase s.created) }
  | _ => s

/-- Run a schedule: a list of call indices, each performing its next
atomic segment. -/
def runCalls (s : MgrState) : List Nat → MgrState
  | [] => s
  | i :: rest => runCalls (stepCall s i) rest

end Registry

namespace V1

/-- Progress of one worker (one delivered copy of the message, possibly on
another consumer process) through part_001's `processMessage`: before its
pre-send transaction, between the committed `processing` mark and its
terminal write (holding the in-memory record), or finished. -/
inductive WorkerPhase
  | atStart
  | inSend (record : Notification)
  | finished
deriving DecidableEq, Repr

/-- A worker together with the outcomes its external calls will have. -/
structure Worker where
  phase : WorkerPhase
  env : Env
deriving DecidableEq, Repr

/-- One atomic step of a worker against the shared store.  The pre-send
transaction is atomic because of the store's exclusive row lock; the
terminal write in the send phase is a single `Notification.update`.
Returns `none` when the worker is finished. -/
def stepWorker (maxAttempts : Nat) (store : Option Notification) (w : Worker) :
    Option (Option Notification × Worker) :=
  match w.phase with
  | .atStart =>
    match preSend w.env maxAttempts store with
    | .done r => some (r.store, ⟨.finished, w.env⟩)
    | .proceed record st1 => some (st1, ⟨.inSend record, w.env⟩)
  | .inSend record => some ((sendPhase w.env record store).store, ⟨.finished, w.env⟩)
  | .finished => none

/-- The shared store together with every in-flight worker. -/
structure Sys where
  store : Option Notification
  workers : List Worker
deriving DecidableEq, Repr

/-- Interleaving semantics: any one worker performs its next atomic
segment against the shared store. -/
inductive SysStep (maxAttempts : Nat) : Sys → Sys → Prop
  | mk (store st1 : Option Notification) (pre post : List Worker) (w w1 : Worker) :
      stepWorker maxAttempts store w = some (st1, w1) →
      SysStep maxAttempts ⟨store, pre ++ w :: post⟩ ⟨st1, pre ++ w1 :: post⟩

/-- Reachability under the interleaving semantics. -/
def Reach (maxAttempts : Nat) : Sys → Sys → Prop :=
  Relation.ReflTransGen (SysStep maxAttempts)

/-- Whether a worker is in its send phase. -/
def isInSend (w : Worker) : Bool :=
  match w.phase with
  | .inSend _ => true
  | _ => false

/-- The store row exists and its status is `sent`. -/
def isSentStore (store : Option Notification) : Bool :=
  match store with
  | some r => r.status == .sent
  | none => false

/-- The store row exists and its status is `processing`. -/
def isProcessingStore (store : Option Notification) : Bool :=
  match store with
  | some r => r.status == .processing
  | none => false

/-- Inductive invariant of the part_001 system: at most one worker is in
its send phase, and while one is, the shared row is marked `processing`
(so every other worker's pre-send transaction acks and skips). -/
def Inv (s : Sys) : Prop :=
  s.workers.countP isInSend ≤ 1 ∧
  (∀ w ∈ s.workers, isInSend w = true → isProcessingStore s.store = true)

end V1

/-- A fully populated, valid message payload for concrete runs. -/
def payloadFull : Payload :=
  { clientId := some "tenant-1", messageId := some "m1", hasContent := true,
    contentMessage := some "hello", contentSubject := some "subject",
    contentBody := some "body", contentFromEmail := some "from",
    destination := some "dest", provider := some "twilio" }

/-- An environment in which every external call succeeds. -/
def envOk : Env :=
  { beginTxRaises := false, findRaises := false, saveRaises := false,
    commitRaises := false, rollbackRaises := false, senderRaises := false,
    senderErrMsg := "", updateSentRaises := false, updateSentErrMsg := "",
    updateFailedRaises := false }

/-- Every store call succeeds; the sender raises with message "boom". -/
def envSendFail : Env := { envOk with senderRaises := true, senderErrMsg := "boom" }

/-- The sender raises, and so does the follow-up `Notification.update` that
should record the failure. -/
def envSendAndUpdateFail : Env := { envSendFail with updateFailedRaises := true }

/-- The pre-send transaction's commit raises; everything else succeeds. -/
def envCommitFail : Env := { envOk with commitRaises := true }

/-- The pre-send transaction's save raises; everything else succeeds. -/
def envSaveFail : Env := { envOk with saveRaises := true }

/-- The locked find raises; everything else succeeds. -/
def envFindFail : Env := { envOk with findRaises := true }

/-- A connected client that already has a consumer attached. -/
def clientWithTag : Client.ClientState :=
  { connection := true, channel := true, consumerTag := some 7, isShuttingDown := false }

/-- The `attempts` counter of the store row; 0 when no row exists. -/
def attemptsOf : Option Notification → Nat
  | none => 0
  | some r => r.attempts

/-- Whether a part_000 delivery reaches the lock-held proceed branch that
marks the record `processing` (lines 150-154). -/
def V0.reachesProceed (env : Env) (maxAttempts : Nat) (msg : Option (Option Payload))
    (store : Option Notification) : Bool :=
  match msg with
  | some (some _) =>
    !env.beginTxRaises &&
      (match V0.preSend env maxAttempts store with
       | .proceed _ _ => true
       | .done _ => false)
  | _ => false

/-- Whether a part_001 delivery reaches the lock-held proceed branch that
marks the record `processing` (lines 243-246). -/
def V1.reachesProceed (env : Env) (maxAttempts : Nat) (msg : Option (Option Payload))
    (store : Option Notification) : Bool :=
  match msg with
  | some (some p) =>
    validPayload p && !env.beginTxRaises &&
      (match V1.preSend env maxAttempts store with
       | .proceed _ _ => true
       | .done _ => false)
  | _ => false

/-- C1: on part_000's handler, when the sender fails and the follow-up
`Notification.update` to `failed` also raises, the exception escapes the
async handler and zero acknowledgments are issued — the message is left
neither acked nor nacked, contradicting the claimed exactly-one-outcome
guarantee.  part_001's outer catch resolves the same situation with a
single nack-drop, as the spec's step 10 requires. -/
theorem c1_escape :
    V0.processMessage envSendAndUpdateFail (some (some payloadFull)) "sms" 3
        (some ⟨.pending, 0, none⟩) =
      ⟨[], true, some ⟨.processing, 1, none⟩, true⟩ ∧
    V1.processMessage envSendAndUpdateFail (some (some payloadFull)) 3
        (some ⟨.pending, 0, none⟩) =
      ⟨[.nackDrop], false, some ⟨.processing, 1, none⟩, true⟩ :=
  ⟨rfl, rfl⟩

/-- C2 counterexample: part_000's handler has no `status == processing`
branch.  Delivered a message whose record is locked in status
`processing`, it re-marks the record, increments `attempts`, and invokes
the Sender (here succeeding and overwriting the record to `sent`) —
refuting the claim that the Sender is not invoked and the record is not
modified for such a delivery. -/
theorem c2_counterexample :
    V0.processMessage envOk (some (some payloadFull)) "sms" 3
        (some ⟨.processing, 1, none⟩) =
      ⟨[.ack], false, some ⟨.sent, 2, none⟩, true⟩ :=
  rfl

/-- C3 counterexample: part_001's handler, on a sender failure with the
just-incremented `attempts = 1` still below `maxAttempts = 3`, marks the
record `failed` and then ACKs the message — where the claim requires a
NACK with requeue so the broker can redeliver. -/
theorem c3_counterexample :
    V1.processMessage envSendFail (some (some payloadFull)) 3
        (some ⟨.pending, 0, none⟩) =
      ⟨[.ack], false, some ⟨.failed, 1, some "boom"⟩, true⟩ :=
  rfl

/-- C4 counterexample: in part_000, a concurrent redelivery of the same
messageId races the first delivery.  Worker A's pre-send transaction marks
the pending record `processing` (attempts 1); worker B's pre-send
transaction, lacking the processing-skip branch, proceeds anyway
(attempts 2); A's sender succeeds and its terminal write marks the record
`sent`; then B's sender fails and B's terminal write overwrites the `sent`
record with `failed` — a `sent` record transitions again, refuting the
claimed invariant for part_000. -/
theorem c4_counterexample :
    V0.preSend envOk 3 (some ⟨.pending, 0, none⟩) =
      .proceed ⟨.processing, 1, none⟩ (some ⟨.processing, 1, none⟩) ∧
    V0.preSend envOk 3 (some ⟨.processing, 1, none⟩) =
      .proceed ⟨.processing, 2, none⟩ (some ⟨.processing, 2, none⟩) ∧
    (V0.sendPhase envOk "sms" 3 ⟨.processing, 1, none⟩ (some ⟨.processing, 2, none⟩)).store =
      some ⟨.sent, 2, none⟩ ∧
    (V0.sendPhase envSendFail "sms" 3 ⟨.processing, 2, none⟩ (some ⟨.sent, 2, none⟩)).store =
      some ⟨.failed, 2, some "boom"⟩ :=
  ⟨rfl, rfl, rfl, rfl⟩

/-- C6: two `getClient` calls for the same previously-unseen id, both
passing the `cache.has` check before either finishes connecting, create
two broker connections; the second `cache.set` silently shadows the first,
and the two callers hold different clients.  A sequential pair of calls
creates only one connection (the contrast the claim asserts should hold
always). -/
theorem c6_double_connect :
    (Registry.runCalls ⟨none, 0, [.beforeCheck, .beforeCheck]⟩ [0, 1, 0, 1]).created = 2 ∧
    (Registry.runCalls ⟨none, 0, [.beforeCheck, .beforeCheck]⟩ [0, 1, 0, 1]).cache = some 1 ∧
    (Registry.runCalls ⟨none, 0, [.beforeCheck, .beforeCheck]⟩ [0, 1, 0, 1]).calls =
      [.donePhase 0, .donePhase 1] ∧
    (Registry.runCalls ⟨none, 0, [.beforeCheck, .beforeCheck]⟩ [0, 0, 1]).created = 1 :=
  ⟨rfl, rfl, rfl, rfl⟩

/-- C7 counterexample: in part_000, when the pre-send transaction fails
(here the commit raises) on a record whose `attempts = 5` already exceeds
`maxAttempts = 3`, the handler rolls back and NACKs WITH requeue — the
claim requires a NACK without requeue once no attempts remain. -/
theorem c7_counterexample :
    V0.processMessage envCommitFail (some (some payloadFull)) "sms" 3
        (some ⟨.failed, 5, none⟩) =
      ⟨[.nackRequeue], false, some ⟨.failed, 5, none⟩, false⟩ :=
  rfl

/-- C10: `close` (identical in part_000 and part_001) always leaves the
client with null channel, connection, and consumerTag, whatever the
starting state and whichever teardown call raises — the finally block
clears the handles before any exception is re-thrown. -/
theorem c10_close_clears (env : Client.CloseEnv) (s : Client.ClientState) :
    (Client.close env s).1.connection = false ∧
    (Client.close env s).1.channel = false ∧
    (Client.close env s).1.consumerTag = none ∧
    (Client.close env s).1.isShuttingDown = true :=
  ⟨rfl, rfl, rfl, rfl⟩

/-- C2 (amended): part_001's handler, delivered a valid message whose
record is locked in status `processing` and whose transaction operations
succeed, commits, ACKs, does not invoke the Sender, and leaves the record
unchanged for that delivery. -/
theorem c2_processing_skip (env : Env) (p : Payload) (maxAttempts : Nat)
    (record : Notification) (hp : validPayload p = true)
    (hb : env.beginTxRaises = false) (hf : env.findRaises = false)
    (hc : env.commitRaises = false) (hs : record.status = .processing) :
    V1.processMessage env (some (some p)) maxAttempts (some record) =
      ⟨[.ack], false, some record, false⟩ := by
  simp [V1.processMessage, V1.preSend, hp, hb, hf, hc, hs]

/-- C2 witness: concrete instance of the processing-skip theorem. -/
theorem c2_witness :
    validPayload payloadFull = true ∧
    V1.processMessage envOk (some (some payloadFull)) 3 (some ⟨.processing, 2, none⟩) =
      ⟨[.ack], false, some ⟨.processing, 2, none⟩, false⟩ :=
  ⟨rfl, c2_processing_skip envOk payloadFull 3 ⟨.processing, 2, none⟩ rfl rfl rfl rfl rfl⟩

/-- C3 (amended): part_000's handler implements the claimed sender-failure
policy: it updates the record to `failed` with the error detail and then
ACKs when the just-incremented `attempts` has reached `maxAttempts`,
otherwise NACKs with requeue.  (part_001 instead ACKs unconditionally —
see the counterexample.) -/
theorem c3_sender_failure_v0 (env : Env) (p : Payload) (service : String)
    (maxAttempts : Nat) (record : Notification)
    (hb : env.beginTxRaises = false) (hf : env.findRaises = false)
    (hsv : env.saveRaises = false) (hc : env.commitRaises = false)
    (hu : env.updateFailedRaises = false)
    (hsvc : V0.supportedService service = true) (hsend : env.senderRaises = true)
    (h1 : record.status ≠ .sent)
    (h2 : ¬(record.status = .failed ∧ maxAttempts ≤ record.attempts)) :
    V0.processMessage env (some (some p)) service maxAttempts (some record) =
      ⟨[if maxAttempts ≤ record.attempts + 1 then .ack else .nackRequeue], false,
        some ⟨.failed, record.attempts + 1, some env.senderErrMsg⟩, true⟩ := by
  simp [V0.processMessage, V0.preSend, V0.sendPhase, hb, hf, hsv, hc, hu, hsvc, hsend, h1, h2]
  split_ifs <;> rfl

/-- C3 witness: first delivery with `maxAttempts = 3`, sender fails,
incremented attempts 1 below the bound: record marked failed with the
error detail and the message nack-requeued. -/
theorem c3_witness :
    V0.supportedService "email" = true ∧ envSendFail.senderRaises = true ∧
    V0.processMessage envSendFail (some (some payloadFull)) "email" 3
        (some ⟨.pending, 0, none⟩) =
      ⟨[.nackRequeue], false, some ⟨.failed, 1, some "boom"⟩, true⟩ := by
  refine ⟨rfl, rfl, ?_⟩
  have h := c3_sender_failure_v0 envSendFail payloadFull "email" 3 ⟨.pending, 0, none⟩
    rfl rfl rfl rfl rfl rfl rfl (by decide) (by decide)
  simpa using h

/-- C5: in both part_000 and part_001, a delivery whose record is already
`sent` when fetched under the lock is ACKed, the Sender is not invoked,
and the record is untouched — idempotence under broker redelivery. -/
theorem c5_sent_idempotent (env : Env) (p : Payload) (service : String)
    (maxAttempts : Nat) (record : Notification) (hp : validPayload p = true)
    (hb : env.beginTxRaises = false) (hf : env.findRaises = false)
    (hc : env.commitRaises = false) (hs : record.status = .sent) :
    V0.processMessage env (some (some p)) service maxAttempts (some record) =
      ⟨[.ack], false, some record, false⟩ ∧
    V1.processMessage env (some (some p)) maxAttempts (some record) =
      ⟨[.ack], false, some record, false⟩ := by
  constructor
  · simp [V0.processMessage, V0.preSend, hb, hf, hc, hs]
  · simp [V1.processMessage, V1.preSend, hp, hb, hf, hc, hs]

/-- C5 witness: concrete already-sent record, both handlers ack without
invoking the sender. -/
theorem c5_witness :
    validPayload payloadFull = true ∧
    V0.processMessage envOk (some (some payloadFull)) "sms" 3 (some ⟨.sent, 1, none⟩) =
      ⟨[.ack], false, some ⟨.sent, 1, none⟩, false⟩ ∧
    V1.processMessage envOk (some (some payloadFull)) 3 (some ⟨.sent, 1, none⟩) =
      ⟨[.ack], false, some ⟨.sent, 1, none⟩, false⟩ :=
  ⟨rfl,
    (c5_sent_idempotent envOk payloadFull "sms" 3 ⟨.sent, 1, none⟩ rfl rfl rfl rfl rfl).1,
    (c5_sent_idempotent envOk payloadFull "sms" 3 ⟨.sent, 1, none⟩ rfl rfl rfl rfl rfl).2⟩

/-- C7 (amended): on a pre-send transaction failure, part_001 rolls back
and NACKs with requeue iff the in-memory record's attempts (already
incremented when the failure hits the proceed branch's save or commit)
are below `maxAttempts`, and NACKs without requeue when the locked fetch
itself raised before a record was available; part_000 rolls back and
always NACKs with requeue, regardless of attempts.  The conjuncts cover
every pre-send failure site: for part_001 the proceed branch (any record
that reaches it), the sent/processing skip branches, the max-attempts
branch, the no-record branch, and the fetch itself; for part_000 the
fetch, the commit on every branch, and the proceed-branch save. -/
theorem c7_amended_behavior :
    (∀ (env : Env) (p : Payload) (maxAttempts : Nat) (record : Notification),
      validPayload p = true → env.beginTxRaises = false → env.findRaises = false →
      env.rollbackRaises = false → (env.saveRaises || env.commitRaises) = true →
      record.status ≠ .sent → record.status ≠ .processing →
      ¬(maxAttempts ≤ record.attempts ∧ record.status = .failed) →
      V1.processMessage env (some (some p)) maxAttempts (some record) =
        ⟨[if record.attempts + 1 < maxAttempts then .nackRequeue else .nackDrop], false,
          some record, false⟩) ∧
    (∀ (env : Env) (p : Payload) (maxAttempts : Nat) (record : Notification),
      validPayload p = true → env.beginTxRaises = false → env.findRaises = false →
      env.rollbackRaises = false → env.commitRaises = true →
      (record.status = .sent ∨ record.status = .processing) →
      V1.processMessage env (some (some p)) maxAttempts (some record) =
        ⟨[if record.attempts < maxAttempts then .nackRequeue else .nackDrop], false,
          some record, false⟩) ∧
    (∀ (env : Env) (p : Payload) (maxAttempts : Nat) (record : Notification),
      validPayload p = true → env.beginTxRaises = false → env.findRaises = false →
      env.rollbackRaises = false → (env.saveRaises || env.commitRaises) = true →
      record.status = .failed → maxAttempts ≤ record.attempts →
      V1.processMessage env (some (some p)) maxAttempts (some record) =
        ⟨[.nackDrop], false, some record, false⟩) ∧
    (∀ (env : Env) (p : Payload) (maxAttempts : Nat) (store : Option Notification),
      validPayload p = true → env.beginTxRaises = false → env.rollbackRaises = false →
      env.findRaises = true →
      V1.processMessage env (some (some p)) maxAttempts store =
        ⟨[.nackDrop], false, store, false⟩) ∧
    (∀ (env : Env) (p : Payload) (maxAttempts : Nat),
      validPayload p = true → env.beginTxRaises = false → env.findRaises = false →
      env.rollbackRaises = false → env.commitRaises = true →
      V1.processMessage env (some (some p)) maxAttempts none =
        ⟨[.nackDrop], false, none, false⟩) ∧
    (∀ (env : Env) (p : Payload) (service : String) (maxAttempts : Nat)
        (store : Option Notification),
      env.beginTxRaises = false → env.rollbackRaises = false → env.findRaises = true →
      V0.processMessage env (some (some p)) service maxAttempts store =
        ⟨[.nackRequeue], false, store, false⟩) ∧
    (∀ (env : Env) (p : Payload) (service : String) (maxAttempts : Nat)
        (store : Option Notification),
      env.beginTxRaises = false → env.findRaises = false → env.rollbackRaises = false →
      env.commitRaises = true →
      V0.processMessage env (some (some p)) service maxAttempts store =
        ⟨[.nackRequeue], false, store, false⟩) ∧
    (∀ (env : Env) (p : Payload) (service : String) (maxAttempts : Nat)
        (record : Notification),
      env.beginTxRaises = false → env.findRaises = false → env.rollbackRaises = false →
      env.saveRaises = true → record.status ≠ .sent →
      ¬(record.status = .failed ∧ maxAttempts ≤ record.attempts) →
      V0.processMessage env (some (some p)) service maxAttempts (some record) =
        ⟨[.nackRequeue], false, some record, false⟩) := by
  refine ⟨?_, ?_, ?_, ?_, ?_, ?_, ?_, ?_⟩
  · intro env p maxAttempts record hp hb hf hr hsc h1 h2 h3
    simp [V1.processMessage, V1.preSend, V1.dbCatch, hp, hb, hf, hr, hsc, h1, h2, h3]
    split_ifs <;> rfl
  · intro env p maxAttempts record hp hb hf hr hc hs
    rcases hs with hs | hs <;>
      simp [V1.processMessage, V1.preSend, V1.dbCatch, hp, hb, hf, hr, hc, hs] <;>
      split_ifs <;> rfl
  · intro env p maxAttempts record hp hb hf hr hsc h1 h2
    have h3 : ¬record.attempts < maxAttempts := Nat.not_lt.mpr h2
    simp [V1.processMessage, V1.preSend, V1.dbCatch, hp, hb, hf, hr, hsc, h1, h2, h3]
  · intro env p maxAttempts store hp hb hr hf
    simp [V1.processMessage, V1.preSend, V1.dbCatch, hp, hb, hr, hf]
  · intro env p maxAttempts hp hb hf hr hc
    simp [V1.processMessage, V1.preSend, V1.dbCatch, hp, hb, hf, hr, hc]
  · intro env p service maxAttempts store hb hr hf
    simp [V0.processMessage, V0.preSend, V0.dbCatch, hb, hr, hf]
  · intro env p service maxAttempts store hb hf hr hc
    rcases store with _ | record <;>
      simp [V0.processMessage, V0.preSend, V0.dbCatch, hb, hf, hr, hc] <;>
      split_ifs <;> rfl
  · intro env p service maxAttempts record hb hf hr hsv h1 h2
    simp [V0.processMessage, V0.preSend, V0.dbCatch, hb, hf, hr, hsv, h1, h2]

/-- C7 witness: concrete instances of every conjunct — part_001: a failed
record below max whose proceed-branch save fails (nack-requeue), a
processing record whose skip-branch commit fails (nack-requeue), a sent
record at max whose skip-branch commit fails (nack-drop), a failed record
at max whose save fails (nack-drop), a failing locked fetch (nack-drop),
a no-record commit failure (nack-drop); part_000: a failing fetch, a
failing commit, and a failing save, each nack-requeued. -/
theorem c7_witness :
    validPayload payloadFull = true ∧
    V1.processMessage envSaveFail (some (some payloadFull)) 3 (some ⟨.failed, 1, none⟩) =
      ⟨[.nackRequeue], false, some ⟨.failed, 1, none⟩, false⟩ ∧
    V1.processMessage envCommitFail (some (some payloadFull)) 3
        (some ⟨.processing, 0, none⟩) =
      ⟨[.nackRequeue], false, some ⟨.processing, 0, none⟩, false⟩ ∧
    V1.processMessage envCommitFail (some (some payloadFull)) 3 (some ⟨.sent, 3, none⟩) =
      ⟨[.nackDrop], false, some ⟨.sent, 3, none⟩, false⟩ ∧
    V1.processMessage envSaveFail (some (some payloadFull)) 3 (some ⟨.failed, 5, none⟩) =
      ⟨[.nackDrop], false, some ⟨.failed, 5, none⟩, false⟩ ∧
    V1.processMessage envFindFail (some (some payloadFull)) 3 (some ⟨.pending, 0, none⟩) =
      ⟨[.nackDrop], false, some ⟨.pending, 0, none⟩, false⟩ ∧
    V1.processMessage envCommitFail (some (some payloadFull)) 3 none =
      ⟨[.nackDrop], false, none, false⟩ ∧
    V0.processMessage envFindFail (some (some payloadFull)) "sms" 3
        (some ⟨.sent, 2, none⟩) =
      ⟨[.nackRequeue], false, some ⟨.sent, 2, none⟩, false⟩ ∧
    V0.processMessage envCommitFail (some (some payloadFull)) "sms" 3 none =
      ⟨[.nackRequeue], false, none, false⟩ ∧
    V0.processMessage envSaveFail (some (some payloadFull)) "sms" 3
        (some ⟨.processing, 0, none⟩) =
      ⟨[.nackRequeue], false, some ⟨.processing, 0, none⟩, false⟩ := by
  refine ⟨rfl, ?_, ?_, ?_, ?_, ?_, ?_, ?_, ?_, ?_⟩
  · have h := c7_amended_behavior.1 envSaveFail payloadFull 3 ⟨.failed, 1, none⟩
      rfl rfl rfl rfl rfl (by decide) (by decide) (by decide)
    simpa using h
  · have h := c7_amended_behavior.2.1 envCommitFail payloadFull 3 ⟨.processing, 0, none⟩
      rfl rfl rfl rfl rfl (Or.inr rfl)
    simpa using h
  · have h := c7_amended_behavior.2.1 envCommitFail payloadFull 3 ⟨.sent, 3, none⟩
      rfl rfl rfl rfl rfl (Or.inl rfl)
    simpa using h
  · exact c7_amended_behavior.2.2.1 envSaveFail payloadFull 3 ⟨.failed, 5, none⟩
      rfl rfl rfl rfl rfl rfl (by decide)
  · exact c7_amended_behavior.2.2.2.1 envFindFail payloadFull 3 (some ⟨.pending, 0, none⟩)
      rfl rfl rfl rfl
  · exact c7_amended_behavior.2.2.2.2.1 envCommitFail payloadFull 3 rfl rfl rfl rfl rfl
  · exact c7_amended_behavior.2.2.2.2.2.1 envFindFail payloadFull "sms" 3
      (some ⟨.sent, 2, none⟩) rfl rfl rfl
  · exact c7_amended_behavior.2.2.2.2.2.2.1 envCommitFail payloadFull "sms" 3 none
      rfl rfl rfl rfl
  · exact c7_amended_behavior.2.2.2.2.2.2.2 envSaveFail payloadFull "sms" 3
      ⟨.processing, 0, none⟩ rfl rfl rfl rfl (by decide) (by decide)

/-- C9: in both part_000 and part_001, calling `consume` on a client whose
`consumerTag` is already set returns without registering a new broker
subscription and leaves the stored tag unchanged. -/
theorem c9_consume_guard (s : Client.ClientState) (t newTag : Nat) (configOk : Bool)
    (h : s.consumerTag = some t) :
    Client.consumeV0 configOk newTag s =
      some (if !s.channel then Client.connectV0 s else s, false) ∧
    Client.consumeV1 newTag s =
      some (if !s.channel then Client.connectV1 s else s, false) ∧
    (if !s.channel then Client.connectV0 s else s).consumerTag = some t ∧
    (if !s.channel then Client.connectV1 s else s).consumerTag = some t := by
  by_cases hch : s.channel
  · simp [Client.consumeV0, Client.consumeV1, hch, h]
  · simp [Client.consumeV0, Client.consumeV1, Client.connectV0, Client.connectV1, hch, h]
    split_ifs <;> simp [h]

/-- C9 witness: a connected client with tag 7; a second consume call is a
no-op that keeps the tag. -/
theorem c9_witness :
    clientWithTag.consumerTag = some 7 ∧
    Client.consumeV0 true 9 clientWithTag = some (clientWithTag, false) ∧
    Client.consumeV1 9 clientWithTag = some (clientWithTag, false) := by
  have h := c9_consume_guard clientWithTag 7 9 true rfl
  exact ⟨rfl, by simpa using h.1, by simpa using h.2.1⟩

/-- Store-row preservation of part_000's transaction catch (rollback). -/
theorem v0_dbCatch_store (env : Env) (store : Option Notification) :
    (V0.dbCatch env store).store = store := by
  unfold V0.dbCatch; split_ifs <;> rfl

/-- Store-row preservation of part_001's transaction catch (rollback). -/
theorem v1_dbCatch_store (env : Env) (maxAttempts : Nat)
    (recordAvail store : Option Notification) :
    (V1.dbCatch env maxAttempts recordAvail store).store = store := by
  rcases recordAvail with _ | r <;> simp only [V1.dbCatch] <;> split_ifs <;> rfl

/-- The part_000 send phase never changes the `attempts` counter. -/
theorem v0_sendPhase_attempts (env : Env) (service : String) (maxAttempts : Nat)
    (record : Notification) (store : Option Notification) :
    attemptsOf (V0.sendPhase env service maxAttempts record store).store =
      attemptsOf store := by
  rcases store with _ | r <;> unfold V0.sendPhase <;> split_ifs <;> rfl

/-- The part_001 send phase never changes the `attempts` counter. -/
theorem v1_sendPhase_attempts (env : Env) (record : Notification)
    (store : Option Notification) :
    attemptsOf (V1.sendPhase env record store).store = attemptsOf store := by
  rcases store with _ | r <;> unfold V1.sendPhase <;> split_ifs <;> rfl

/-- When part_000's pre-send transaction finishes the delivery it leaves
`attempts` unchanged. -/
theorem v0_preSend_done_attempts (env : Env) (maxAttempts : Nat)
    (store : Option Notification) (r : RunResult)
    (h : V0.preSend env maxAttempts store = .done r) :
    attemptsOf r.store = attemptsOf store := by
  rcases store with _ | record <;> simp only [V0.preSend] at h <;>
    split_ifs at h <;>
    first
      | (injection h with h; subst h; simp [v0_dbCatch_store, attemptsOf])
      | injection h

/-- When part_000's pre-send transaction proceeds, the committed store has
`attempts` incremented by exactly one. -/
theorem v0_preSend_proceed_attempts (env : Env) (maxAttempts : Nat)
    (store : Option Notification) (record : Notification) (st1 : Option Notification)
    (h : V0.preSend env maxAttempts store = .proceed record st1) :
    attemptsOf st1 = attemptsOf store + 1 := by
  rcases store with _ | r0 <;> simp only [V0.preSend] at h <;>
    split_ifs at h <;>
    first
      | (injection h with h1 h2; subst h2; simp [attemptsOf])
      | injection h

/-- When part_001's pre-send transaction finishes the delivery it leaves
`attempts` unchanged. -/
theorem v1_preSend_done_attempts (env : Env) (maxAttempts : Nat)
    (store : Option Notification) (r : RunResult)
    (h : V1.preSend env maxAttempts store = .done r) :
    attemptsOf r.store = attemptsOf store := by
  rcases store with _ | record <;> simp only [V1.preSend] at h <;>
    split_ifs at h <;>
    first
      | (injection h with h; subst h; simp [v1_dbCatch_store, attemptsOf])
      | injection h

/-- When part_001's pre-send transaction proceeds, the committed store has
`attempts` incremented by exactly one. -/
theorem v1_preSend_proceed_attempts (env : Env) (maxAttempts : Nat)
    (store : Option Notification) (record : Notification) (st1 : Option Notification)
    (h : V1.preSend env maxAttempts store = .proceed record st1) :
    attemptsOf st1 = attemptsOf store + 1 := by
  rcases store with _ | r0 <;> simp only [V1.preSend] at h <;>
    split_ifs at h <;>
    first
      | (injection h with h1 h2; subst h2; simp [attemptsOf])
      | injection h

/-- C8: in both part_000 and part_001, one delivery changes the record's
`attempts` by exactly one when and only when it reaches the lock-held
proceed branch that marks the record `processing`, and leaves it unchanged
otherwise — so `attempts` increases by at most 1 per delivery and never
decreases, on every handler path (including every raising path). -/
theorem c8_attempts (env : Env) (msg : Option (Option Payload)) (service : String)
    (maxAttempts : Nat) (store : Option Notification) :
    attemptsOf (V0.processMessage env msg service maxAttempts store).store =
      attemptsOf store +
        (if V0.reachesProceed env maxAttempts msg store then 1 else 0) ∧
    attemptsOf (V1.processMessage env msg maxAttempts store).store =
      attemptsOf store +
        (if V1.reachesProceed env maxAttempts msg store then 1 else 0) := by
  constructor
  · rcases msg with _ | (_ | p)
    · simp [V0.processMessage, V0.reachesProceed]
    · simp [V0.processMessage, V0.reachesProceed]
    · by_cases hb : env.beginTxRaises
      · simp [V0.processMessage, V0.reachesProceed, hb]
      · rcases hps : V0.preSend env maxAttempts store with r | ⟨record, st1⟩
        · simp [V0.processMessage, V0.reachesProceed, hb, hps,
            v0_preSend_done_attempts env maxAttempts store r hps]
        · simp [V0.processMessage, V0.reachesProceed, hb, hps, v0_sendPhase_attempts,
            v0_preSend_proceed_attempts env maxAttempts store record st1 hps]
  · rcases msg with _ | (_ | p)
    · simp [V1.processMessage, V1.reachesProceed]
    · simp [V1.processMessage, V1.reachesProceed]
    · by_cases hv : validPayload p
      · by_cases hb : env.beginTxRaises
        · simp [V1.processMessage, V1.reachesProceed, hv, hb]
        · rcases hps : V1.preSend env maxAttempts store with r | ⟨record, st1⟩
          · simp [V1.processMessage, V1.reachesProceed, hv, hb, hps,
              v1_preSend_done_attempts env maxAttempts store r hps]
          · simp [V1.processMessage, V1.reachesProceed, hv, hb, hps, v1_sendPhase_attempts,
              v1_preSend_proceed_attempts env maxAttempts store record st1 hps]
      · simp [V1.processMessage, V1.reachesProceed, hv]

/-- A store row cannot be both `sent` and `processing`. -/
theorem not_sent_and_processing (store : Option Notification) :
    ¬(V1.isSentStore store = true ∧ V1.isProcessingStore store = true) := by
  rcases store with _ | r <;> simp [V1.isSentStore, V1.isProcessingStore]
  intro h1 h2
  rw [h1] at h2
  exact absurd h2 (by decide)

/-- On a row that is already `sent` or `processing`, part_001's pre-send
transaction always finishes the delivery and leaves the row unchanged
(the skip branches, or a rolled-back transaction failure). -/
theorem v1_preSend_skip (env : Env) (maxAttempts : Nat) (store : Option Notification)
    (h : V1.isSentStore store = true ∨ V1.isProcessingStore store = true) :
    ∃ r, V1.preSend env maxAttempts store = .done r ∧ r.store = store := by
  rcases store with _ | record
  · simp [V1.isSentStore, V1.isProcessingStore] at h
  · have hst : record.status = .sent ∨ record.status = .processing := by
      rcases h with h | h
      · exact Or.inl (by simpa [V1.isSentStore] using h)
      · exact Or.inr (by simpa [V1.isProcessingStore] using h)
    by_cases hf : env.findRaises
    · exact ⟨V1.dbCatch env maxAttempts none (some record), by simp [V1.preSend, hf],
        v1_dbCatch_store env maxAttempts none (some record)⟩
    · by_cases hc : env.commitRaises
      · refine ⟨V1.dbCatch env maxAttempts (some record) (some record), ?_,
          v1_dbCatch_store env maxAttempts (some record) (some record)⟩
        rcases hst with hs | hs <;> simp [V1.preSend, hf, hs, hc]
      · refine ⟨⟨[.ack], false, some record, false⟩, ?_, rfl⟩
        rcases hst with hs | hs <;> simp [V1.preSend, hf, hs, hc]

/-- When part_001's pre-send transaction proceeds, the in-memory record is
marked `processing` and the committed row is exactly that record. -/
theorem v1_preSend_proceed_shape (env : Env) (maxAttempts : Nat)
    (store : Option Notification) (record : Notification) (st1 : Option Notification)
    (h : V1.preSend env maxAttempts store = .proceed record st1) :
    record.status = .processing ∧ st1 = some record := by
  rcases store with _ | r0 <;> simp only [V1.preSend] at h <;>
    split_ifs at h <;>
    first
      | (injection h with h1 h2; subst h2; subst h1; exact ⟨rfl, rfl⟩)
      | injection h

/-- A worker that has not started is not in its send phase. -/
theorem isInSend_atStart (w : V1.Worker) (h : w.phase = .atStart) :
    V1.isInSend w = false := by
  simp [V1.isInSend, h]

/-- A finished worker is not in its send phase. -/
theorem isInSend_finished (e : Env) :
    V1.isInSend ⟨.finished, e⟩ = false := rfl

/-- Send-phase count of a worker list split around one worker. -/
theorem countP_append_cons (pre post : List V1.Worker) (w : V1.Worker) :
    (pre ++ w :: post).countP V1.isInSend =
      pre.countP V1.isInSend + post.countP V1.isInSend +
        (if V1.isInSend w then 1 else 0) := by
  rw [List.countP_append, List.countP_cons]
  omega

/-- One interleaved step of the part_001 system preserves the invariant:
at most one worker in the send phase, and the shared row `processing`
while one is. -/
theorem v1_step_inv (maxAttempts : Nat) (s s1 : V1.Sys)
    (hstep : V1.SysStep maxAttempts s s1) (hinv : V1.Inv s) : V1.Inv s1 := by
  rcases hstep with ⟨store, st1, pre, post, w, w1, hw⟩
  obtain ⟨hcount, hproc⟩ := hinv
  dsimp only at hcount hproc
  rcases hwp : w.phase with _ | record
  case atStart =>
    simp only [V1.stepWorker, hwp] at hw
    have e2 : (if V1.isInSend w then 1 else 0) = 0 := by
      rw [isInSend_atStart w hwp]; rfl
    by_cases hbusy : ∃ w2 ∈ pre ++ post, V1.isInSend w2 = true
    · -- some other worker is mid-send: the store row is processing, so the
      -- stepping worker's transaction skips and leaves the row unchanged
      obtain ⟨w2, hw2mem, hw2send⟩ := hbusy
      have hw2mem2 : w2 ∈ pre ++ w :: post := by
        rcases List.mem_append.mp hw2mem with hmem | hmem
        · exact List.mem_append.mpr (Or.inl hmem)
        · exact List.mem_append.mpr (Or.inr (List.mem_cons_of_mem w hmem))
      have hps : V1.isProcessingStore store = true := hproc w2 hw2mem2 hw2send
      obtain ⟨r, hr, hrs⟩ := v1_preSend_skip w.env maxAttempts store (Or.inr hps)
      rw [hr] at hw
      simp only [Option.some.injEq, Prod.mk.injEq] at hw
      obtain ⟨hst1, hw1⟩ := hw
      constructor
      · show (pre ++ w1 :: post).countP V1.isInSend ≤ 1
        rw [← hw1, countP_append_cons]
        rw [countP_append_cons, e2] at hcount
        have e1 : (if V1.isInSend ⟨V1.WorkerPhase.finished, w.env⟩ then 1 else 0) = 0 := rfl
        rw [e1]
        omega
      · intro w3 hw3 hw3send
        show V1.isProcessingStore st1 = true
        rw [← hst1, hrs]
        exact hps
    · -- no worker is mid-send
      push_neg at hbusy
      have hzero : (pre ++ post).countP V1.isInSend = 0 :=
        List.countP_eq_zero.mpr (fun w2 hmem => by simp [hbusy w2 hmem])
      rw [List.countP_append] at hzero
      rcases hps : V1.preSend w.env maxAttempts store with r | ⟨rec2, st2⟩ <;>
        rw [hps] at hw <;>
        simp only [Option.some.injEq, Prod.mk.injEq] at hw <;>
        obtain ⟨hst1, hw1⟩ := hw
      · constructor
        · show (pre ++ w1 :: post).countP V1.isInSend ≤ 1
          rw [← hw1, countP_append_cons]
          have e1 : (if V1.isInSend ⟨V1.WorkerPhase.finished, w.env⟩ then 1 else 0) = 0 := rfl
          rw [e1]
          omega
        · intro w3 hw3 hw3send
          exfalso
          rcases List.mem_append.mp hw3 with hmem | hmem
          · exact absurd hw3send (by simp [hbusy w3 (List.mem_append.mpr (Or.inl hmem))])
          · rcases List.mem_cons.mp hmem with hmem | hmem
            · subst hmem
              rw [← hw1] at hw3send
              simp [V1.isInSend] at hw3send
            · exact absurd hw3send
                (by simp [hbusy w3 (List.mem_append.mpr (Or.inr hmem))])
      · obtain ⟨hrec2, hst2⟩ := v1_preSend_proceed_shape w.env maxAttempts store rec2 st2 hps
        constructor
        · show (pre ++ w1 :: post).countP V1.isInSend ≤ 1
          rw [← hw1, countP_append_cons]
          have e1 : (if V1.isInSend ⟨V1.WorkerPhase.inSend rec2, w.env⟩ then 1 else 0) = 1 := rfl
          rw [e1]
          omega
        · intro w3 hw3 hw3send
          show V1.isProcessingStore st1 = true
          rw [← hst1, hst2]
          simp [V1.isProcessingStore, hrec2]
  case inSend =>
    simp only [V1.stepWorker, hwp] at hw
    simp only [Option.some.injEq, Prod.mk.injEq] at hw
    obtain ⟨hst1, hw1⟩ := hw
    have hwsend : (if V1.isInSend w then 1 else 0) = 1 := by
      simp [V1.isInSend, hwp]
    rw [countP_append_cons, hwsend] at hcount
    constructor
    · show (pre ++ w1 :: post).countP V1.isInSend ≤ 1
      rw [← hw1, countP_append_cons]
      have e1 : (if V1.isInSend ⟨V1.WorkerPhase.finished, w.env⟩ then 1 else 0) = 0 := rfl
      rw [e1]
      omega
    · intro w3 hw3 hw3send
      exfalso
      have hpre : pre.countP V1.isInSend = 0 := by omega
      have hpost : post.countP V1.isInSend = 0 := by omega
      rcases List.mem_append.mp hw3 with hmem | hmem
      · exact List.countP_eq_zero.mp hpre w3 hmem hw3send
      · rcases List.mem_cons.mp hmem with hmem | hmem
        · subst hmem
          rw [← hw1] at hw3send
          simp [V1.isInSend] at hw3send
        · exact List.countP_eq_zero.mp hpost w3 hmem hw3send
  case finished =>
    simp [V1.stepWorker, hwp] at hw

/-- One interleaved step of the part_001 system keeps a `sent` row
`sent`. -/
theorem v1_step_sent (maxAttempts : Nat) (s s1 : V1.Sys)
    (hstep : V1.SysStep maxAttempts s s1) (hinv : V1.Inv s)
    (hs : V1.isSentStore s.store = true) : V1.isSentStore s1.store = true := by
  rcases hstep with ⟨store, st1, pre, post, w, w1, hw⟩
  obtain ⟨hcount, hproc⟩ := hinv
  dsimp only at hcount hproc hs
  rcases hwp : w.phase with _ | record
  case atStart =>
    simp only [V1.stepWorker, hwp] at hw
    obtain ⟨r, hr, hrs⟩ := v1_preSend_skip w.env maxAttempts store (Or.inl hs)
    rw [hr] at hw
    simp only [Option.some.injEq, Prod.mk.injEq] at hw
    obtain ⟨hst1, _⟩ := hw
    show V1.isSentStore st1 = true
    rw [← hst1, hrs]
    exact hs
  case inSend =>
    exfalso
    have hwsend : V1.isInSend w = true := by simp [V1.isInSend, hwp]
    have hps : V1.isProcessingStore store = true :=
      hproc w (List.mem_append.mpr (Or.inr (List.mem_cons_self w post))) hwsend
    exact not_sent_and_processing store ⟨hs, hps⟩
  case finished =>
    simp [V1.stepWorker, hwp] at hw

/-- Invariant preservation along any interleaved run. -/
theorem v1_reach_inv (maxAttempts : Nat) (s s1 : V1.Sys)
    (h : V1.Reach maxAttempts s s1) (hinv : V1.Inv s) : V1.Inv s1 := by
  induction h with
  | refl => exact hinv
  | tail _ hbc ih => exact v1_step_inv maxAttempts _ _ hbc ih

/-- A `sent` row stays `sent` along any interleaved run from an
invariant-satisfying state. -/
theorem v1_reach_sent (maxAttempts : Nat) (s s1 : V1.Sys)
    (h : V1.Reach maxAttempts s s1) (hinv : V1.Inv s)
    (hs : V1.isSentStore s.store = true) : V1.isSentStore s1.store = true := by
  induction h with
  | refl => exact hs
  | tail hab hbc ih => exact v1_step_sent maxAttempts _ _ hbc (v1_reach_inv maxAttempts _ _ hab hinv) ih

/-- A system whose workers have all not started satisfies the invariant. -/
theorem v1_initial_inv (store : Option Notification) (ws : List V1.Worker)
    (h : ∀ w ∈ ws, w.phase = .atStart) : V1.Inv ⟨store, ws⟩ := by
  constructor
  · have hzero : ws.countP V1.isInSend = 0 :=
      List.countP_eq_zero.mpr (fun w hw => by simp [isInSend_atStart w (h w hw)])
    show ws.countP V1.isInSend ≤ 1
    omega
  · intro w hw hin
    rw [isInSend_atStart w (h w hw)] at hin
    exact absurd hin (by decide)

/-- C4 (amended): for part_001's handler, in the interleaved concurrency
model (pre-send transaction atomic under the store's exclusive row lock,
terminal status update atomic), a record that has reached status `sent`
never transitions to any other status again, for every number of
concurrent redeliveries and every schedule.  (part_000's handler violates
the original claim — see the counterexample.) -/
theorem c4_sent_stable (maxAttempts : Nat) (store : Option Notification)
    (ws : List V1.Worker) (s1 s2 : V1.Sys)
    (h0 : ∀ w ∈ ws, w.phase = .atStart)
    (h1 : V1.Reach maxAttempts ⟨store, ws⟩ s1)
    (hs : V1.isSentStore s1.store = true)
    (h2 : V1.Reach maxAttempts s1 s2) :
    V1.isSentStore s2.store = true :=
  v1_reach_sent maxAttempts s1 s2 h2
    (v1_reach_inv maxAttempts ⟨store, ws⟩ s1 h1 (v1_initial_inv store ws h0)) hs

/-- C4 witness: one worker delivered a redelivery of an already-sent
record; after its pre-send transaction acks and finishes, the row is still
`sent`. -/
theorem c4_witness :
    (∀ w ∈ [(⟨.atStart, envOk⟩ : V1.Worker)], w.phase = V1.WorkerPhase.atStart) ∧
    V1.isSentStore (some ⟨.sent, 1, none⟩) = true ∧
    V1.isSentStore ((⟨some ⟨.sent, 1, none⟩,
        [⟨V1.WorkerPhase.finished, envOk⟩]⟩ : V1.Sys).store) = true := by
  refine ⟨by simp, rfl, ?_⟩
  exact c4_sent_stable 3 (some ⟨.sent, 1, none⟩) [⟨.atStart, envOk⟩]
    ⟨some ⟨.sent, 1, none⟩, [⟨.atStart, envOk⟩]⟩
    ⟨some ⟨.sent, 1, none⟩, [⟨.finished, envOk⟩]⟩
    (by simp) Relation.ReflTransGen.refl rfl
    (Relation.ReflTransGen.single
      (V1.SysStep.mk (some ⟨.sent, 1, none⟩) (some ⟨.sent, 1, none⟩) [] []
        ⟨.atStart, envOk⟩ ⟨.finished, envOk⟩ rfl))

end Notifier
